import Mathlib

/-!
Verification development for the purchase-plan dashboard (`app.py`).

The logic-bearing part of the program is `parse_scenarios_from_csv`: pandas
reads a CSV with `header=None` into a rectangular table whose cells the
function renders with `str(...)`; a missing cell (ragged CSV row padded by
pandas with NaN) renders as "nan".  We model the table as a list of rows of
strings (`Grid`); `getCell` pads out-of-range cells with "nan", matching the
pandas padding.  Monetary values are modelled as rationals (every value the
program manipulates is an exact decimal).

String primitives used by the Python code (`strip`, `lower`, `replace` with
one-character patterns, substring test `in`) are embedded as structurally
recursive functions over `List Char`.
-/

/-- Numeric value of a list of decimal digit characters, most significant
first (the value `int`/`float` assign to a digit string). -/
def digitsToNat (cs : List Char) : Nat :=
  cs.foldl (fun a c => a * 10 + (c.toNat - 48)) 0

/-- True when every character is an ASCII decimal digit. -/
def allDigits (cs : List Char) : Bool :=
  cs.all (fun c => c.isDigit)

/-- Occurrence of `needle` as a contiguous substring of the second list. -/
def subOccurs (needle : List Char) : List Char → Bool
  | [] => needle.isPrefixOf ([])
  | c :: cs => needle.isPrefixOf (c :: cs) || subOccurs needle cs

/-- Substring containment, modelling the Python `in` operator on strings and
pandas `Series.str.contains` with a literal (regex-free) pattern. -/
def strContains (hay needle : String) : Bool :=
  subOccurs needle.data hay.data

/-- Whitespace trimming on both ends, modelling Python `str.strip()`. -/
def trimChars (cs : List Char) : List Char :=
  ((cs.dropWhile Char.isWhitespace).reverse.dropWhile Char.isWhitespace).reverse

/-- Python `str.strip()`. -/
def strTrim (s : String) : String :=
  String.mk (trimChars s.data)

/-- Python `str.lower()` (ASCII letters, which is all the program compares). -/
def strToLower (s : String) : String :=
  String.mk (s.data.map Char.toLower)

/-- Splits a numeric literal at the first exponent marker `e`/`E`, if any. -/
def splitExp (cs : List Char) : List Char × Option (List Char) :=
  match cs.dropWhile (fun c => c != 'e' && c != 'E') with
  | [] => (cs.takeWhile (fun c => c != 'e' && c != 'E'), none)
  | _ :: e => (cs.takeWhile (fun c => c != 'e' && c != 'E'), some e)

/-- Signed decimal integer literal (the exponent part of a float literal). -/
def parseSignedInt (cs : List Char) : Option ℤ :=
  match cs with
  | '+' :: ds => if !ds.isEmpty && allDigits ds then some ((digitsToNat ds : ℤ)) else none
  | '-' :: ds => if !ds.isEmpty && allDigits ds then some (-(digitsToNat ds : ℤ)) else none
  | ds => if !ds.isEmpty && allDigits ds then some ((digitsToNat ds : ℤ)) else none

/-- Mantissa of a decimal literal: digits with an optional single decimal
point (`"123"`, `"123.45"`, `"123."`, `".45"` are accepted, as by Python
`float`). -/
def parseMantissa (cs : List Char) : Option ℚ :=
  match cs.dropWhile (fun c => c != '.') with
  | [] =>
    if !cs.isEmpty && allDigits cs then some ((digitsToNat cs : ℚ)) else none
  | _ :: frac =>
    let intPart := cs.takeWhile (fun c => c != '.')
    if (!intPart.isEmpty || !frac.isEmpty) && allDigits intPart && allDigits frac then
      some ((digitsToNat intPart : ℚ) + (digitsToNat frac : ℚ) / ((10 : ℚ) ^ frac.length))
    else none

/-- Unsigned part of Python `float(...)`: mantissa with optional exponent. -/
def pyFloatUnsigned (cs : List Char) : Option ℚ :=
  match splitExp cs with
  | (m, none) => parseMantissa m
  | (m, some e) =>
    match parseMantissa m, parseSignedInt e with
    | some q, some z => some (q * (10 : ℚ) ^ z)
    | _, _ => none

/-- Python `float(...)` on a string, restricted to finite decimal literals
(optional sign, digits, optional decimal point, optional exponent), returning
the exact rational value; `none` models the `ValueError` raise.  Python
additionally accepts `"nan"`, `"inf"` and underscore digit separators, which
have no exact rational counterpart or do not arise in this program's data. -/
def pyFloat (s : String) : Option ℚ :=
  match (strTrim s).data with
  | '+' :: r => pyFloatUnsigned r
  | '-' :: r => (pyFloatUnsigned r).map (fun q => -q)
  | r => pyFloatUnsigned r

/-- Cell cleaning of `app.py` line 80: remove every `$` and `,`, and replace
every occurrence of `-` with `0` (Python `str.replace` replaces all
occurrences of its one-character patterns). -/
def cleanCell (raw : String) : String :=
  String.mk (((raw.data.filter (fun x => x != '$')).filter (fun x => x != ',')).map
    (fun x => if x == '-' then '0' else x))

/-- Data-cell parsing of `app.py` lines 77-93: clean the cell, then if a `k`
appears anywhere in the lowercased text, delete every `k` and multiply the
converted number by 1000; a failed conversion degrades to `0`. -/
def parse_cell_value (raw : String) : ℚ :=
  let clean_val := cleanCell raw
  if (strToLower clean_val).data.contains ('k') then
    match pyFloat (String.mk ((strToLower clean_val).data.filter (fun x => x != 'k'))) with
    | some q => q * 1000
    | none => 0
  else
    match pyFloat clean_val with
    | some q => q
    | none => 0

/-- A parsed CSV table: rows of string cells (cells already rendered through
`str(...)`, so a missing value is the text "nan"). -/
abbrev Grid : Type := List (List String)

/-- Cell access; cells outside the stored row are "nan", matching pandas
padding of ragged CSV rows with NaN. -/
def getCell (g : Grid) (r c : Nat) : String :=
  match g[r]? with
  | none => "nan"
  | some row =>
    match row[c]? with
    | none => "nan"
    | some s => s

/-- Number of columns of the table, as pandas infers it: the width of the
widest row. -/
def ncols (g : Grid) : Nat :=
  (g.map List.length).foldr Nat.max 0

/-- All cells of row `r`, across the full table width (`df.iloc[r].values`). -/
def rowCells (g : Grid) (r : Nat) : List String :=
  (List.range (ncols g)).map (fun c => getCell g r c)

/-- Anchor label of `app.py` line 25. -/
def target_label : String := "Cumulative Total Cash Flow"

/-- All rows whose column-0 text contains the anchor label (`app.py` line 26). -/
def cumulative_rows (g : Grid) : List Nat :=
  (List.range g.length).filter (fun r => strContains (getCell g r 0) target_label)

/-- The Python iteration `range(row_idx, max(0, row_idx - window), -1)`:
row indices from `row_idx` downward, exclusive lower bound
`max 0 (row_idx - window)`. -/
def scanRange (row_idx window : Nat) : List Nat :=
  (List.range (row_idx - (row_idx - window))).map (fun i => row_idx - i)

/-- Predicate of `app.py` line 37: column-1 text of row `r`, stripped, equals
`Variables`. -/
def is_variables_row (g : Grid) (r : Nat) : Bool :=
  strTrim (getCell g r 1) == "Variables"

/-- Scenario-name resolution of `app.py` lines 32-42: scan up to 50 rows
upward for the `Variables` marker; the name is the stripped column-0 text of
the row above it, unless that text is empty or "nan", in which case (or when
no marker is found) the synthetic fallback name is used. -/
def find_scenario_name (g : Grid) (row_idx : Nat) : String :=
  match (scanRange row_idx 50).find? (is_variables_row g) with
  | none => "Scenario " ++ toString row_idx
  | some r =>
    if strTrim (getCell g (r - 1) 0) != "" && strToLower (strTrim (getCell g (r - 1) 0)) != "nan"
    then strTrim (getCell g (r - 1) 0)
    else "Scenario " ++ toString row_idx

/-- Quarters-row search of `app.py` lines 46-52: scan up to 20 rows upward
for the first row containing both cells exactly "Q1" and "Q2". -/
def find_q_row (g : Grid) (row_idx : Nat) : Option Nat :=
  (scanRange row_idx 20).find? (fun r =>
    (rowCells g r).contains ("Q1") && (rowCells g r).contains ("Q2"))

/-- Current-year update of `app.py` lines 69-70: if the (stripped) years-row
cell contains "CY20", the current year becomes the cell text up to the first
space; otherwise it is unchanged. -/
def update_year (current_year y_val : String) : String :=
  if strContains y_val ("CY20") then String.mk (y_val.data.takeWhile (fun ch => ch != ' '))
  else current_year

/-- The quarter labels accepted at `app.py` line 73. -/
def quarter_labels : List String := ["Q1", "Q2", "Q3", "Q4"]

/-- One step of the column walk of `app.py` lines 64-93, carrying
`(current_year, timeline, values)`. -/
def process_column (g : Grid) (q_row_idx row_idx : Nat)
    (acc : String × List String × List ℚ) (c : Nat) : String × List String × List ℚ :=
  let y_val := strTrim (getCell g (q_row_idx - 1) c)
  let q_val := strTrim (getCell g q_row_idx c)
  let year := update_year acc.1 y_val
  if quarter_labels.contains q_val then
    (year, acc.2.1 ++ [year ++ " " ++ q_val],
      acc.2.2 ++ [parse_cell_value (getCell g row_idx c)])
  else
    (year, acc.2.1, acc.2.2)

/-- The full column walk: columns 1 .. ncols-1, starting from an empty
current year, empty timeline and empty values. -/
def build_columns (g : Grid) (q_row_idx row_idx : Nat) : List String × List ℚ :=
  (((List.range (ncols g)).drop 1).foldl (process_column g q_row_idx row_idx)
    (("", ([], [])))).2

/-- One extracted scenario: a timeline of period labels and a parallel list
of monetary values. -/
structure Scenario where
  timeline : List String
  values : List ℚ
deriving DecidableEq

/-- Python dict assignment `d[k] = v`: overwrite in place when the key
exists, append otherwise. -/
def dictInsert (d : List (String × Scenario)) (k : String) (v : Scenario) :
    List (String × Scenario) :=
  if d.any (fun p => p.1 == k) then
    d.map (fun p => if p.1 == k then (k, v) else p)
  else d ++ [(k, v)]

/-- Processing of one anchor row (`app.py` lines 28-99): resolve the name,
search for the quarters row; when none is found the anchor is skipped,
otherwise the block's timeline and values are stored under the name. -/
def process_anchor (g : Grid) (scenarios : List (String × Scenario)) (row_idx : Nat) :
    List (String × Scenario) :=
  match find_q_row g row_idx with
  | none => scenarios
  | some q_row_idx =>
    dictInsert scenarios (find_scenario_name g row_idx)
      (Scenario.mk (build_columns g q_row_idx row_idx).1 (build_columns g q_row_idx row_idx).2)

/-- The whole extraction over a readable grid (`app.py` lines 21-101). -/
def extract_scenarios (g : Grid) : List (String × Scenario) :=
  (cumulative_rows g).foldl (process_anchor g) []

/-- `parse_scenarios_from_csv` including its file-read guard (`app.py` lines
15-19): an unobtainable grid (`FileNotFoundError`) yields `none`, a readable
grid yields the extraction result. -/
def parse_scenarios_from_csv (csv_read_result : Option Grid) :
    Option (List (String × Scenario)) :=
  match csv_read_result with
  | none => none
  | some g => some (extract_scenarios g)

/-- The name scan of `app.py` lines 35-42 with the pandas bounds made
explicit: `str(df.iloc[r, 1])` at line 36 raises an uncaught IndexError when
the frame has fewer than two columns or the row is outside the frame, and
`df.iloc[r - 1, 0]` at line 39 likewise; `none` models the uncaught raise.
Inside the frame, cells behave as `getCell` (pandas NaN padding). -/
def name_scan (g : Grid) (row_idx : Nat) : List Nat → Option String
  | [] => some ("Scenario " ++ toString row_idx)
  | r :: rs =>
    if r < g.length ∧ 1 < ncols g then
      if strTrim (getCell g r 1) == "Variables" then
        if r - 1 < g.length ∧ 0 < ncols g then
          if strTrim (getCell g (r - 1) 0) != ""
              && strToLower (strTrim (getCell g (r - 1) 0)) != "nan"
          then some (strTrim (getCell g (r - 1) 0))
          else some ("Scenario " ++ toString row_idx)
        else none
      else name_scan g row_idx rs
    else none

/-- The quarters scan of `app.py` lines 46-52 with the pandas bounds made
explicit: `df.iloc[r]` raises for a row outside the frame (outer `none`);
otherwise the first row whose cells include both "Q1" and "Q2" is returned
(`some (some r)`), or `some none` when the scan window is exhausted. -/
def q_scan (g : Grid) : List Nat → Option (Option Nat)
  | [] => some none
  | r :: rs =>
    if r < g.length then
      if (rowCells g r).contains ("Q1") && (rowCells g r).contains ("Q2") then some (some r)
      else q_scan g rs
    else none

/-- Processing of one anchor row with the raising paths of pandas modelled
(`none` = an exception escapes `parse_scenarios_from_csv`): the name scan
runs first (line 35), then the quarters scan (line 47), then the three row
reads of lines 55-57; `process_anchor` is this function with every
out-of-frame access collapsed to "nan" padding. -/
def process_anchorE (g : Grid) (scenarios : List (String × Scenario)) (row_idx : Nat) :
    Option (List (String × Scenario)) :=
  match name_scan g row_idx (scanRange row_idx 50) with
  | none => none
  | some scenario_name =>
    match q_scan g (scanRange row_idx 20) with
    | none => none
    | some none => some scenarios
    | some (some q_row_idx) =>
      if q_row_idx - 1 < g.length ∧ q_row_idx < g.length ∧ row_idx < g.length then
        some (dictInsert scenarios scenario_name
          (Scenario.mk (build_columns g q_row_idx row_idx).1
            (build_columns g q_row_idx row_idx).2))
      else none

/-- The anchor loop of `app.py` line 28 with exception propagation: an
anchor that raises aborts the whole extraction, otherwise the loop continues
with the remaining anchors. -/
def anchors_fold (g : Grid) (scenarios : List (String × Scenario)) :
    List Nat → Option (List (String × Scenario))
  | [] => some scenarios
  | r :: rs =>
    match process_anchorE g scenarios r with
    | none => none
    | some s2 => anchors_fold g s2 rs

/-- The whole extraction with the pandas IndexError paths modelled: `none`
is an uncaught exception (nothing in `app.py` catches IndexError). -/
def extract_scenariosE (g : Grid) : Option (List (String × Scenario)) :=
  anchors_fold g [] (cumulative_rows g)

/-- Running sum with an accumulator. -/
def cumulFrom (acc : ℚ) : List ℚ → List ℚ
  | [] => []
  | v :: rest => (acc + v) :: cumulFrom (acc + v) rest

/-- Modelled from the spec: the Aggregator operation `cumulative` of spec
section 4.1 (`output[i] = sum(values[0..i])`).  No function in `app.py`
computes it — the ingested data rows are already cumulative and the app only
plots them — so the operation is embedded from the spec's contract as a
running sum. -/
def cumulative (values : List ℚ) : List ℚ :=
  cumulFrom 0 values

/-- A grid holding exactly one well-formed scenario block. -/
def gridOneBlock : Grid :=
  [["My Scenario"],
   ["nan", "Variables"],
   ["nan", "CY2024", "CY2024", "CY2025"],
   ["nan", "Q1", "Q2", "Q1"],
   ["Cumulative Total Cash Flow", "$10", "$20", "$30"]]

/-- A grid holding two well-formed blocks whose name rows both read "S". -/
def gridTwoBlocks : Grid :=
  [["S"],
   ["nan", "Variables"],
   ["nan", "CY2024"],
   ["nan", "Q1", "Q2"],
   ["Cumulative Total Cash Flow", "$1", "$2"],
   ["S"],
   ["nan", "Variables"],
   ["nan", "CY2025"],
   ["nan", "Q1", "Q2"],
   ["Cumulative Total Cash Flow", "$7", "$8"]]

/-- A grid with an anchor row but no quarters row anywhere above it. -/
def gridNoQuarters : Grid :=
  [["nan"],
   ["nan"],
   ["Cumulative Total Cash Flow", "$5"]]

/-- A one-column grid (a comma-free CSV) with an anchor row below row 0:
the name scan's column-1 access is outside the frame. -/
def gridOneCol : Grid :=
  [["x"],
   ["Cumulative Total Cash Flow"]]

/-- A grid with a quarters row and years row but no `Variables` marker. -/
def gridNoVars : Grid :=
  [["nan", "CY2024"],
   ["nan", "Q1", "Q2"],
   ["Cumulative Total Cash Flow", "$5", "$6"]]

theorem cumulFrom_length (acc : ℚ) (V : List ℚ) : (cumulFrom acc V).length = V.length := by
  induction V generalizing acc with
  | nil => rfl
  | cons v rest ih => simp [cumulFrom, ih]

theorem cumulFrom_getLast (V : List ℚ) : ∀ acc : ℚ, V ≠ [] →
    (cumulFrom acc V).getLast? = some (acc + V.sum) := by
  induction V with
  | nil => intro acc h; exact absurd rfl h
  | cons v rest ih =>
    intro acc _
    cases rest with
    | nil => simp [cumulFrom]
    | cons w ws =>
      have step : cumulFrom acc (v :: w :: ws)
          = (acc + v) :: (acc + v + w) :: cumulFrom (acc + v + w) ws := rfl
      have step2 : cumulFrom (acc + v) (w :: ws)
          = (acc + v + w) :: cumulFrom (acc + v + w) ws := rfl
      rw [step, List.getLast?_cons_cons, ← step2, ih (acc + v) (by simp)]
      congr 1
      simp only [List.sum_cons]
      ring

theorem isPrefixOf_append_self (l t : List Char) : l.isPrefixOf (l ++ t) = true := by
  induction l with
  | nil => cases t <;> rfl
  | cons c cs ih => simp [List.isPrefixOf, ih]

theorem subOccurs_append_self (needle t : List Char) : subOccurs needle (needle ++ t) = true := by
  cases needle with
  | nil =>
    cases t with
    | nil => rfl
    | cons c cs => simp [subOccurs, List.isPrefixOf]
  | cons c cs =>
    show (List.isPrefixOf (c :: cs) (c :: (cs ++ t)) || subOccurs (c :: cs) (cs ++ t)) = true
    have h := isPrefixOf_append_self (c :: cs) t
    rw [List.cons_append] at h
    rw [h, Bool.true_or]

theorem strContains_append_self (p rest : String) : strContains (p ++ rest) p = true := by
  show subOccurs p.data ((p ++ rest).data) = true
  have hdata : (p ++ rest).data = p.data ++ rest.data := rfl
  rw [hdata]
  exact subOccurs_append_self p.data rest.data

theorem process_column_foldl_len (g : Grid) (q r : Nat) (cs : List Nat) :
    ∀ acc : String × List String × List ℚ, acc.2.1.length = acc.2.2.length →
      (cs.foldl (process_column g q r) acc).2.1.length
        = (cs.foldl (process_column g q r) acc).2.2.length := by
  induction cs with
  | nil => intro acc h; simpa using h
  | cons c cs ih =>
    intro acc h
    rw [List.foldl_cons]
    apply ih
    simp only [process_column]
    split
    · simp [h]
    · simpa using h

theorem build_columns_length (g : Grid) (q_row_idx row_idx : Nat) :
    (build_columns g q_row_idx row_idx).1.length = (build_columns g q_row_idx row_idx).2.length :=
  process_column_foldl_len g q_row_idx row_idx (((List.range (ncols g)).drop 1))
    (("", ([], []))) rfl

theorem dictInsert_forall (P : String × Scenario → Prop) (d : List (String × Scenario))
    (k : String) (v : Scenario) (hd : ∀ e ∈ d, P e) (hv : P (k, v)) :
    ∀ e ∈ dictInsert d k v, P e := by
  intro e he
  rw [dictInsert] at he
  split at he
  · rcases List.mem_map.mp he with ⟨x, hx, rfl⟩
    split
    · exact hv
    · exact hd x hx
  · rcases List.mem_append.mp he with h1 | h1
    · exact hd e h1
    · rcases List.mem_singleton.mp h1 with rfl
      exact hv

theorem find_scenario_name_of_no_marker (g : Grid) (row_idx : Nat)
    (h : (scanRange row_idx 50).find? (is_variables_row g) = none) :
    find_scenario_name g row_idx = "Scenario " ++ toString row_idx := by
  unfold find_scenario_name
  rw [h]

theorem find_scenario_name_of_marker (g : Grid) (row_idx r : Nat)
    (h : (scanRange row_idx 50).find? (is_variables_row g) = some r) :
    find_scenario_name g row_idx
      = if strTrim (getCell g (r - 1) 0) != ""
            && strToLower (strTrim (getCell g (r - 1) 0)) != "nan"
        then strTrim (getCell g (r - 1) 0)
        else "Scenario " ++ toString row_idx := by
  unfold find_scenario_name
  rw [h]

theorem process_anchor_preserves (g : Grid) (d : List (String × Scenario)) (r : Nat)
    (hd : ∀ e ∈ d, e.2.timeline.length = e.2.values.length) :
    ∀ e ∈ process_anchor g d r, e.2.timeline.length = e.2.values.length := by
  intro e he
  unfold process_anchor at he
  cases hq : find_q_row g r with
  | none =>
    rw [hq] at he
    exact hd e he
  | some q =>
    rw [hq] at he
    exact dictInsert_forall (fun e => e.2.timeline.length = e.2.values.length) d
      (find_scenario_name g r)
      (Scenario.mk (build_columns g q r).1 (build_columns g q r).2) hd
      (build_columns_length g q r) e he

theorem foldl_anchor_preserves (g : Grid) (rs : List Nat) :
    ∀ d : List (String × Scenario), (∀ e ∈ d, e.2.timeline.length = e.2.values.length) →
      ∀ e ∈ rs.foldl (process_anchor g) d, e.2.timeline.length = e.2.values.length := by
  induction rs with
  | nil => intro d hd; simpa using hd
  | cons r rs ih =>
    intro d hd
    rw [List.foldl_cons]
    exact ih (process_anchor g d r) (process_anchor_preserves g d r hd)

/-- Claim C1: the Aggregator operation `cumulative` is a pure total function
on sequences of rationals: for every sequence it preserves the length, for
every non-empty sequence the last element of the output is the sum of the
input, and the empty sequence maps to the empty sequence. -/
theorem cumulative_contract (V : List ℚ) :
    (cumulative V).length = V.length
    ∧ (V ≠ [] → (cumulative V).getLast? = some V.sum)
    ∧ cumulative ([] : List ℚ) = [] := by
  refine ⟨cumulFrom_length 0 V, fun h => ?_, rfl⟩
  rw [cumulative, cumulFrom_getLast V 0 h, zero_add]

theorem cumulative_contract_witness :
    (cumulative [1, 2, 3]).getLast? = some (([1, 2, 3] : List ℚ).sum) :=
  (cumulative_contract [1, 2, 3]).2.1 (by simp)

/-- Claim C2: for a grid containing exactly one well-formed block (name row,
`Variables` marker row, years row CY2024/CY2024/CY2025, quarters row
Q1/Q2/Q1, and a data row labelled with the cumulative-cash-flow anchor
holding $10/$20/$30), extraction yields exactly one scenario with timeline
["CY2024 Q1", "CY2024 Q2", "CY2025 Q1"] and values [10, 20, 30]. -/
theorem single_block_extraction :
    extract_scenarios gridOneBlock
      = [("My Scenario",
          Scenario.mk ["CY2024 Q1", "CY2024 Q2", "CY2025 Q1"] [10, 20, 30])] := by
  decide

/-- Claim C3: data-cell parsing maps "$129,000" to 129000, a bare "-" to 0,
"$100k" to 100000 (the k marker multiplies by 1000), and the malformed cell
"abc" to 0; being a total function, it never raises. -/
theorem cell_value_examples :
    parse_cell_value ("$129,000") = 129000
    ∧ parse_cell_value ("-") = 0
    ∧ parse_cell_value ("$100k") = 100000
    ∧ parse_cell_value ("abc") = 0 := by
  refine ⟨by decide, by decide, ?_, by decide⟩
  have h100 : parse_cell_value ("$100k") = ((100 : ℕ) : ℚ) * 1000 := rfl
  rw [h100]
  norm_num

/-- Claim C4: the cleaning step rewrites every `-` in the cell to `0`, not
only a bare dash, so negative amounts lose their sign: "-500" parses to 500
and "$-1,500" parses to 1500. -/
theorem negative_sign_lost :
    cleanCell ("-500") = "0500"
    ∧ cleanCell ("$-1,500") = "01500"
    ∧ parse_cell_value ("-500") = 500
    ∧ parse_cell_value ("$-1,500") = 1500 := by
  refine ⟨by decide, by decide, by decide, by decide⟩

/-- Claim C5: when two anchors resolve to the same scenario name ("S" here,
with the later block holding CY2025 data 7/8), the result mapping has exactly
one entry for that name and it holds the later block's data. -/
theorem duplicate_name_last_write :
    extract_scenarios gridTwoBlocks
      = [("S", Scenario.mk ["CY2025 Q1", "CY2025 Q2"] [7, 8])] := by
  decide

theorem scanRange_mem_bounds (row_idx w r : Nat) (hr : r ∈ scanRange row_idx w) :
    1 ≤ r ∧ r ≤ row_idx := by
  rcases List.mem_map.mp hr with ⟨i, hi, rfl⟩
  have hib := List.mem_range.mp hi
  omega

theorem name_scan_some (g : Grid) (row_idx : Nat) (hw : 2 ≤ ncols g) :
    ∀ rs : List Nat, (∀ r ∈ rs, r < g.length) →
      (name_scan g row_idx rs).isSome = true := by
  intro rs
  induction rs with
  | nil => intro _; rfl
  | cons r rs ih =>
    intro hin
    have hr : r < g.length := hin r (List.mem_cons_self r rs)
    unfold name_scan
    rw [if_pos ⟨hr, by omega⟩]
    by_cases hv : (strTrim (getCell g r 1) == "Variables") = true
    · rw [if_pos hv, if_pos ⟨by omega, by omega⟩]
      split <;> rfl
    · rw [if_neg hv]
      exact ih (fun x hx => hin x (List.mem_cons_of_mem r hx))

theorem q_scan_of_find_none (g : Grid) :
    ∀ rs : List Nat, (∀ r ∈ rs, r < g.length) →
      rs.find? (fun r => (rowCells g r).contains ("Q1") && (rowCells g r).contains ("Q2"))
        = none →
      q_scan g rs = some none := by
  intro rs
  induction rs with
  | nil => intro _ _; rfl
  | cons r rs ih =>
    intro hin hfind
    have hr : r < g.length := hin r (List.mem_cons_self r rs)
    rw [List.find?_cons] at hfind
    have hp : ((rowCells g r).contains ("Q1") && (rowCells g r).contains ("Q2")) = false := by
      cases hb : ((rowCells g r).contains ("Q1") && (rowCells g r).contains ("Q2")) with
      | false => rfl
      | true =>
        rw [hb] at hfind
        exact Option.noConfusion hfind
    have hnp : ¬(((rowCells g r).contains ("Q1") && (rowCells g r).contains ("Q2")) = true) := by
      rw [hp]
      exact Bool.false_ne_true
    rw [hp] at hfind
    unfold q_scan
    rw [if_pos hr, if_neg hnp]
    exact ih (fun x hx => hin x (List.mem_cons_of_mem r hx)) hfind

/-- Counterexample to claim C6 as stated: on the one-column grid, row 1 is
an anchor with no quarters row in its scan window, yet extraction does not
silently skip it — the name scan's `df.iloc[r, 1]` access is outside the
one-column frame and the uncaught IndexError (modelled by `none`) aborts the
whole extraction. -/
theorem one_column_anchor_raises :
    cumulative_rows gridOneCol = [1]
    ∧ find_q_row gridOneCol 1 = none
    ∧ extract_scenariosE gridOneCol = none := by
  decide

/-- Claim C6 (amended): for every anchor row of a grid at least two columns
wide for which no quarters row is found within the bounded upward scan
window, the anchor produces no scenario — processing it leaves the
accumulated result unchanged without raising, and extraction continues with
the remaining anchors.  (On a one-column grid the earlier name scan instead
raises an uncaught IndexError.) -/
theorem missing_quarters_silent_skip (g : Grid) (s : List (String × Scenario)) (row_idx : Nat)
    (hrow : row_idx < g.length) (hw : 2 ≤ ncols g)
    (h : find_q_row g row_idx = none) :
    process_anchorE g s row_idx = some s := by
  have hin50 : ∀ r ∈ scanRange row_idx 50, r < g.length := by
    intro r hr
    have := scanRange_mem_bounds row_idx 50 r hr
    omega
  have hin20 : ∀ r ∈ scanRange row_idx 20, r < g.length := by
    intro r hr
    have := scanRange_mem_bounds row_idx 20 r hr
    omega
  obtain ⟨nm, hnm⟩ := Option.isSome_iff_exists.mp
    (name_scan_some g row_idx hw (scanRange row_idx 50) hin50)
  have hq : q_scan g (scanRange row_idx 20) = some none :=
    q_scan_of_find_none g (scanRange row_idx 20) hin20 h
  unfold process_anchorE
  rw [hnm, hq]

theorem missing_quarters_silent_skip_witness :
    find_q_row gridNoQuarters 2 = none ∧ process_anchorE gridNoQuarters [] 2 = some [] :=
  ⟨by decide,
    missing_quarters_silent_skip gridNoQuarters [] 2 (by decide) (by decide) (by decide)⟩

/-- Claim C7: when no `Variables` row exists in the upward scan window (or
the candidate name above it is empty or missing), the scenario receives the
synthetic name "Scenario <row>", and its timeline and values are still
extracted normally from the quarters/years/data rows. -/
theorem variables_absent_synthetic_name (g : Grid) (s : List (String × Scenario))
    (row_idx q_row_idx : Nat)
    (hname : (scanRange row_idx 50).find? (is_variables_row g) = none
      ∨ ∃ r, (scanRange row_idx 50).find? (is_variables_row g) = some r
          ∧ (strTrim (getCell g (r - 1) 0) = ""
             ∨ strToLower (strTrim (getCell g (r - 1) 0)) = "nan"))
    (hq : find_q_row g row_idx = some q_row_idx) :
    process_anchor g s row_idx
      = dictInsert s ("Scenario " ++ toString row_idx)
          (Scenario.mk (build_columns g q_row_idx row_idx).1
            (build_columns g q_row_idx row_idx).2) := by
  have hn : find_scenario_name g row_idx = "Scenario " ++ toString row_idx := by
    rcases hname with h | ⟨r, hr, hbad⟩
    · exact find_scenario_name_of_no_marker g row_idx h
    · rw [find_scenario_name_of_marker g row_idx r hr]
      rcases hbad with hb | hb
      · rw [hb]
        simp
      · rw [hb]
        simp
  unfold process_anchor
  rw [hq, hn]

theorem variables_absent_synthetic_name_witness :
    process_anchor gridNoVars [] 2
      = [("Scenario 2", Scenario.mk ["CY2024 Q1", "CY2024 Q2"] [5, 6])] := by
  rw [variables_absent_synthetic_name gridNoVars [] 2 1 (Or.inl (by decide)) (by decide)]
  decide

/-- Claim C8: the current-year token is updated whenever a years-row cell
starts with the year pattern, taking only the text up to the first space; in
particular the cell "CY2025 (500 units)" sets the token to exactly "CY2025",
whatever the previous token was. -/
theorem year_token_update (cy rest : String) :
    update_year cy (("CY20") ++ rest)
        = String.mk (((("CY20") ++ rest).data).takeWhile (fun ch => ch != ' '))
    ∧ update_year cy ("CY2025 (500 units)") = "CY2025" := by
  constructor
  · unfold update_year
    rw [if_pos (strContains_append_self ("CY20") rest)]
  · unfold update_year
    rw [if_pos (by decide : strContains ("CY2025 (500 units)") ("CY20") = true)]
    decide

theorem year_token_update_witness :
    update_year ("CY2024") (("CY20") ++ "25") = "CY2025" := by
  rw [(year_token_update ("CY2024") ("25")).1]
  decide

/-- Claim C9: every scenario produced by the extractor has a timeline and a
values list of equal length, for every input grid. -/
theorem timeline_values_same_length (g : Grid) (e : String × Scenario)
    (he : e ∈ extract_scenarios g) : e.2.timeline.length = e.2.values.length :=
  foldl_anchor_preserves g (cumulative_rows g) [] (by simp) e he

theorem timeline_values_same_length_witness :
    (("My Scenario",
        Scenario.mk ["CY2024 Q1", "CY2024 Q2", "CY2025 Q1"] ([10, 20, 30] : List ℚ))
      ∈ extract_scenarios gridOneBlock)
    ∧ (Scenario.mk ["CY2024 Q1", "CY2024 Q2", "CY2025 Q1"]
        ([10, 20, 30] : List ℚ)).timeline.length
      = (Scenario.mk ["CY2024 Q1", "CY2024 Q2", "CY2025 Q1"]
        ([10, 20, 30] : List ℚ)).values.length :=
  ⟨by decide, timeline_values_same_length gridOneBlock
    (("My Scenario",
      Scenario.mk ["CY2024 Q1", "CY2024 Q2", "CY2025 Q1"] ([10, 20, 30] : List ℚ)))
    (by decide)⟩

/-- Claim C10: when the source file cannot be obtained the extraction
operation returns `none` (no data) rather than a failure signal, and a
readable grid always yields a result, so the caller can offer an alternative
input path. -/
theorem missing_file_returns_none :
    parse_scenarios_from_csv none = none
    ∧ ∀ g : Grid, parse_scenarios_from_csv (some g) = some (extract_scenarios g) :=
  ⟨rfl, fun _ => rfl⟩

theorem missing_file_returns_none_witness :
    parse_scenarios_from_csv (some gridOneBlock) = some (extract_scenarios gridOneBlock) :=
  missing_file_returns_none.2 gridOneBlock
